import Mathlib

/-!
Verification development for the geomaps-sdk repository
(src/geomaps_sdk/maps_sdk.py).

The Python source is shallowly embedded as follows.

Modelling conventions, stated once here and referenced below:
  * Decoded JSON response bodies are values of the inductive type
    JValue.  Python floats and ints are both modelled as exact
    rationals.
  * Raised exceptions are modelled with the Except monad.  The SDK
    exception hierarchy (ValidationError, AuthenticationError,
    RateLimitError, APIError) becomes the SdkError type; uncaught
    builtin Python exceptions (TypeError, AttributeError, KeyError,
    IndexError) that escape the SDK code are modelled by the
    Failure.pyError constructor.
  * Python dictionary and sequence operations that the source applies
    to decoded JSON values are modelled by the py-prefixed primitives
    below.  Branches that only arise from Python dynamic typing which
    no code path of the claims can reach (iterating a string, indexing
    a string, substring membership) are collapsed into Failure.pyError.
  * GeoPoint coordinates are modelled as rationals; the asNum primitive
    models the TypeError that Python raises when the source compares or
    arithmetically combines a decoded JSON value that is not a number.
  * HTTP transport is abstracted as an HttpOutcome value: either a
    response (status code, body text, JSON-decoded body when the body
    parses) or a transport failure, exactly the cases the source
    handles.  Query-parameter strings sent on the wire are not
    modelled; the attribute accesses performed while building them are
    (locAttrs), because they can raise.
-/

namespace Geomaps

/-- JSON values, as returned by response.json() in the source. -/
inductive JValue where
  | null
  | bool (b : Bool)
  | num (q : ℚ)
  | str (s : String)
  | arr (items : List JValue)
  | obj (fields : List (String × JValue))

/-- The SDK exception taxonomy of maps_sdk.py (lines 187-209). -/
inductive SdkError where
  | validationError (msg : String)
  | authenticationError (msg : String)
  | rateLimitError (msg : String)
  | apiError (msg : String)
deriving DecidableEq, Repr

/-- A failure of an SDK operation: either an uncaught builtin Python
exception or a raised SDK exception. -/
inductive Failure where
  | pyError (msg : String)
  | sdkError (e : SdkError)
deriving DecidableEq, Repr

/-- Association-list lookup on the fields of a JSON object (Python dict
lookup; JSON object keys are unique). -/
def lookupField : List (String × JValue) → String → Option JValue
  | [], _ => none
  | (k, v) :: rest, key => if k = key then some v else lookupField rest key

/-- Python truthiness of a decoded JSON value. -/
def JValue.truthy : JValue → Bool
  | .null => false
  | .bool b => b
  | .num q => q ≠ 0
  | .str s => !s.isEmpty
  | .arr items => !items.isEmpty
  | .obj fields => !fields.isEmpty

/-- Python d.get(key): None when the key is absent, AttributeError when
the receiver is not a dict. -/
def pyGet (v : JValue) (key : String) : Except Failure JValue :=
  match v with
  | .obj fields => .ok ((lookupField fields key).getD .null)
  | _ => .error (.pyError ("AttributeError: get of " ++ key ++ " on a non-dict value"))

/-- Python d.get(key, default): AttributeError when the receiver is not
a dict. -/
def pyGetD (v : JValue) (key : String) (dflt : JValue) : Except Failure JValue :=
  match v with
  | .obj fields => .ok ((lookupField fields key).getD dflt)
  | _ => .error (.pyError ("AttributeError: get of " ++ key ++ " on a non-dict value"))

/-- Python key in d, modelled for dict receivers (the only receivers the
source applies it to). -/
def hasKey (v : JValue) (key : String) : Except Failure Bool :=
  match v with
  | .obj fields => .ok (lookupField fields key).isSome
  | _ => .error (.pyError ("TypeError: membership test of " ++ key ++ " on a non-dict value"))

/-- Python d[key] on a dict: KeyError when absent. -/
def pyGetItem (v : JValue) (key : String) : Except Failure JValue :=
  match v with
  | .obj fields =>
    match lookupField fields key with
    | some x => .ok x
    | none => .error (.pyError ("KeyError: " ++ key))
  | _ => .error (.pyError ("TypeError: subscript of " ++ key ++ " on a non-dict value"))

/-- Python iteration over a decoded JSON value, modelled for arrays (the
only values the source iterates on the claimed paths). -/
def pyIter (v : JValue) : Except Failure (List JValue) :=
  match v with
  | .arr items => .ok items
  | _ => .error (.pyError "TypeError: value is not iterable")

/-- Python len() of a decoded JSON value. -/
def pyLen (v : JValue) : Except Failure Nat :=
  match v with
  | .arr items => .ok items.length
  | .str s => .ok s.length
  | .obj fields => .ok fields.length
  | _ => .error (.pyError "TypeError: value has no len")

/-- Python xs[i] indexing, modelled for arrays. -/
def pyIndexJ (v : JValue) (i : Nat) : Except Failure JValue :=
  match v with
  | .arr items =>
    match items.get? i with
    | some x => .ok x
    | none => .error (.pyError "IndexError: list index out of range")
  | _ => .error (.pyError "TypeError: value is not subscriptable")

/-- Numeric coercion of a decoded JSON value: the TypeError Python
raises when a non-number meets a comparison or arithmetic operator.
Python bools are ints. -/
def asNum (v : JValue) : Except Failure ℚ :=
  match v with
  | .num q => .ok q
  | .bool b => .ok (if b then 1 else 0)
  | _ => .error (.pyError "TypeError: value is not a number")

/-- True when the string is empty or all whitespace: the condition under
which Python not query.strip() holds. -/
def is_blank (s : String) : Bool := s.data.all Char.isWhitespace

/-- ASCII uppercasing, modelling str.upper() on the method names the
source passes. -/
def strUpper (s : String) : String := String.mk (s.data.map Char.toUpper)

/-- GeoPoint dataclass (maps_sdk.py lines 48-59). -/
structure GeoPoint where
  latitude : ℚ
  longitude : ℚ
deriving DecidableEq, Repr

/-- Address dataclass (lines 62-91).  Field values come from props.get
calls on decoded JSON, so each is a JValue (JValue.null models Python
None for absent fields). -/
structure Address where
  street : JValue
  house_number : JValue
  city : JValue
  postcode : JValue
  country : JValue
  country_code : JValue
  state : JValue
  formatted_address : JValue

/-- GeocodingResult dataclass (lines 94-114).  Confidence fields hold
the raw rank.get values. -/
structure GeocodingResult where
  location : GeoPoint
  address : Address
  confidence : JValue
  confidence_building_level : JValue
  confidence_street_level : JValue
  confidence_city_level : JValue
  raw_data : JValue

/-- AutocompleteResult dataclass (lines 117-122). -/
structure AutocompleteResult where
  address : Address
  location : GeoPoint
  raw_data : JValue

/-- RouteInfo stored fields (lines 125-128): canonical storage is
kilometers and minutes. -/
structure RouteInfo where
  distance_km : ℚ
  duration_minutes : ℚ
deriving DecidableEq, Repr

/-- RouteInfo.__init__ (lines 130-150).  The explicit raise TypeError
branches are modelled as Failure.pyError. -/
def RouteInfo.init (distance duration distance_km duration_minutes : Option ℚ) :
    Except Failure RouteInfo := do
  let dk ←
    match distance_km with
    | some v => pure v
    | none =>
      match distance with
      | some v => pure (v / 1000)
      | none => throw (Failure.pyError "TypeError: Either distance or distance_km must be provided")
  let dm ←
    match duration_minutes with
    | some v => pure v
    | none =>
      match duration with
      | some v => pure (v / 60)
      | none => throw (Failure.pyError "TypeError: Either duration or duration_minutes must be provided")
  pure ⟨dk, dm⟩

/-- Python int() applied to a real value: truncation toward zero. -/
def pyInt (q : ℚ) : ℤ := if 0 ≤ q then ⌊q⌋ else ⌈q⌉

/-- RouteInfo.distance property (lines 153-156): meters. -/
def RouteInfo.distance (r : RouteInfo) : ℤ := pyInt (r.distance_km * 1000)

/-- RouteInfo.duration property (lines 158-161): seconds. -/
def RouteInfo.duration (r : RouteInfo) : ℤ := pyInt (r.duration_minutes * 60)

/-- RouteInfo.distance_meters alias (lines 164-166). -/
def RouteInfo.distance_meters (r : RouteInfo) : ℤ := r.distance

/-- RouteInfo.duration_seconds alias (lines 168-170). -/
def RouteInfo.duration_seconds (r : RouteInfo) : ℤ := r.duration

/-- DistanceMatrixResult dataclass (lines 173-180).  The echoed sources
and targets are the caller-supplied values, which may be GeoPoints or
untyped mappings, hence List Loc below. -/
inductive Loc where
  | point (p : GeoPoint)
  | dict (fields : List (String × JValue))
  | other

/-- DistanceMatrixResult dataclass (lines 173-180). -/
structure DistanceMatrixResult where
  distances : List (List ℚ)
  durations : List (List ℚ)
  unit : String
  sources : List Loc
  targets : List Loc

/-- TravelMode enum (lines 33-38). -/
inductive TravelMode where
  | driving
  | walking
  | cycling
  | truck
deriving DecidableEq, Repr

/-- TravelMode.value strings. -/
def TravelMode.value : TravelMode → String
  | .driving => "drive"
  | .walking => "walk"
  | .cycling => "bike"
  | .truck => "truck"

/-- DistanceUnit enum (lines 41-45). -/
inductive DistanceUnit where
  | kilometers
  | miles
  | meters
deriving DecidableEq, Repr

/-- Provider state set up by BaseLocationProvider.__init__ (lines
224-237): the credential and the request timeout. -/
structure Provider where
  api_key : String
  timeout : Nat

/-- BaseLocationProvider.__init__ (lines 224-237): an empty credential
fails with ValidationError before any network access. -/
def Provider.init (api_key : String) (timeout : Nat) : Except Failure Provider :=
  if api_key = "" then
    .error (.sdkError (.validationError "API key must be a non-empty string"))
  else
    .ok ⟨api_key, timeout⟩

/-- What the HTTP transport produced for one request: a response with a
status code, raw body text and the JSON-decoded body (none when the
body does not decode), or a transport-level failure. -/
inductive HttpOutcome where
  | response (status : Nat) (text : String) (body : Option JValue)
  | timeout
  | connectionError (msg : String)
  | requestError (msg : String)

/-- The response.json() call on line 387: the decoded body when the
body parses; otherwise the ValueError handler on line 395 turns the
decode failure into APIError.  The source message interpolates the
decoder message; it is modelled with fixed text. -/
def json_decode (body : Option JValue) : Except Failure JValue :=
  match body with
  | some j => .ok j
  | none => .error (.sdkError (.apiError "Failed to parse API response: invalid JSON body"))

/-- BaseLocationProvider._make_request (lines 341-396).  The method
check and the four status checks are in source order; SDK exceptions
raised inside the try block are not caught by its handlers, so they
propagate unchanged. -/
def make_request (timeout : Nat) (method : String) (outcome : HttpOutcome) :
    Except Failure JValue :=
  if strUpper method = "GET" ∨ strUpper method = "POST" then
    match outcome with
    | .timeout =>
      .error (.sdkError (.apiError ("API request timed out after " ++ toString timeout ++ " seconds")))
    | .connectionError m =>
      .error (.sdkError (.apiError ("Connection error: " ++ m)))
    | .requestError m =>
      .error (.sdkError (.apiError ("Request failed: " ++ m)))
    | .response status text body =>
      if status = 401 ∨ status = 403 then
        .error (.sdkError (.authenticationError "Invalid API key or insufficient permissions"))
      else if status = 429 then
        .error (.sdkError (.rateLimitError "API rate limit exceeded. Please try again later."))
      else if 400 ≤ status then
        .error (.sdkError (.apiError ("API request failed with status " ++ toString status ++ ": " ++ text)))
      else
        json_decode body
  else
    .error (.sdkError (.validationError ("Unsupported HTTP method: " ++ method)))

/-- GeoapifyProvider._validate_location (lines 703-718).  The dict
branch requires both keys; the GeoPoint branch reads the fields; any
other value fails with ValidationError.  The two range checks then run
in source order on the extracted values; asNum models the TypeError
Python raises when a chained comparison meets a non-numeric value.
Source messages contain quote characters, which are elided here. -/
def validate_location (location : Loc) (name : String) : Except Failure Unit := do
  let vals ←
    match location with
    | .dict fields =>
      match lookupField fields "latitude", lookupField fields "longitude" with
      | some la, some lo => pure (la, lo)
      | some _, none =>
        throw (Failure.sdkError (.validationError (name ++ " must have latitude and longitude keys")))
      | none, _ =>
        throw (Failure.sdkError (.validationError (name ++ " must have latitude and longitude keys")))
    | .point p => pure (JValue.num p.latitude, JValue.num p.longitude)
    | .other =>
      throw (Failure.sdkError (.validationError (name ++ " must be a GeoPoint or dict with latitude and longitude")))
  let lat ← asNum vals.1
  if ¬(-90 ≤ lat ∧ lat ≤ 90) then
    throw (Failure.sdkError (.validationError (name ++ " latitude must be between -90 and 90")))
  let lon ← asNum vals.2
  if ¬(-180 ≤ lon ∧ lon ≤ 180) then
    throw (Failure.sdkError (.validationError (name ++ " longitude must be between -180 and 180")))
  pure ()

/-- The enumerated loop of _validate_locations_list (lines 728-732).
The except clause re-raises the caught ValidationError with the same
message, so it is the identity on outcomes. -/
def validate_each : List Loc → String → Nat → Except Failure Unit
  | [], _, _ => .ok ()
  | l :: rest, name, idx => do
    validate_location l (name ++ "[" ++ toString idx ++ "]")
    validate_each rest name (idx + 1)

/-- GeoapifyProvider._validate_locations_list (lines 720-732).  The
empty check precedes the per-element loop; the isinstance list check is
vacuous in the typed model. -/
def validate_locations_list (locations : List Loc) (name : String) : Except Failure Unit := do
  if locations.isEmpty then
    throw (Failure.sdkError (.validationError (name ++ " must not be empty")))
  validate_each locations name 0

/-- The attribute reads loc.latitude, loc.longitude performed while
formatting request parameters (lines 619-620, 680-681, 502-503).  A
dict or other value has no such attributes, so Python raises
AttributeError there. -/
def locAttrs : Loc → Except Failure (ℚ × ℚ)
  | .point p => .ok (p.latitude, p.longitude)
  | .dict _ => .error (.pyError "AttributeError: dict object has no attribute latitude")
  | .other => .error (.pyError "AttributeError: object has no attribute latitude")

/-- The list comprehension over locations in distance_matrix (lines
619-620): every element has its attributes read, left to right. -/
def join_locs : List Loc → Except Failure (List (ℚ × ℚ))
  | [] => .ok []
  | l :: rest => do
    let a ← locAttrs l
    let r ← join_locs rest
    .ok (a :: r)

/-- The Address construction shared by the three feature-mapping loops
(lines 459-468, 514-523, 567-576): eight props.get reads in source
order. -/
def parse_address (props : JValue) : Except Failure Address := do
  let street ← pyGet props "street"
  let house_number ← pyGet props "housenumber"
  let city ← pyGet props "city"
  let postcode ← pyGet props "postcode"
  let country ← pyGet props "country"
  let country_code ← pyGet props "country_code"
  let state ← pyGet props "state"
  let formatted ← pyGet props "formatted"
  pure ⟨street, house_number, city, postcode, country, country_code, state, formatted⟩

/-- The body of the geocode feature loop (lines 453-480): a feature
lacking coordinate data (falsy coords or fewer than two entries) is
silently skipped; otherwise a GeocodingResult is built with the wire
coordinate order swapped (latitude=coords[1], longitude=coords[0]). -/
def geocode_feature (feature : JValue) : Except Failure (Option GeocodingResult) := do
  let props ← pyGetD feature "properties" (.obj [])
  let geom ← pyGetD feature "geometry" (.obj [])
  let coords ← pyGetD geom "coordinates" (.arr [])
  if coords.truthy then
    let n ← pyLen coords
    if 2 ≤ n then
      let latV ← pyIndexJ coords 1
      let lonV ← pyIndexJ coords 0
      let lat ← asNum latV
      let lon ← asNum lonV
      let address ← parse_address props
      let rank ← pyGetD props "rank" (.obj [])
      let confidence ← pyGet rank "confidence"
      let cb ← pyGet rank "confidence_building_level"
      let cs ← pyGet rank "confidence_street_level"
      let cc ← pyGet rank "confidence_city_level"
      pure (some ⟨⟨lat, lon⟩, address, confidence, cb, cs, cc, feature⟩)
    else
      pure none
  else
    pure none

/-- The geocode feature loop (lines 452-481). -/
def geocode_features : List JValue → Except Failure (List GeocodingResult)
  | [] => pure []
  | f :: fs => do
    let r ← geocode_feature f
    let rest ← geocode_features fs
    match r with
    | some x => pure (x :: rest)
    | none => pure rest

/-- The body of the autocomplete feature loop (lines 561-583): same
shape as geocode but without the rank block, producing an
AutocompleteResult. -/
def autocomplete_feature (feature : JValue) : Except Failure (Option AutocompleteResult) := do
  let props ← pyGetD feature "properties" (.obj [])
  let geom ← pyGetD feature "geometry" (.obj [])
  let coords ← pyGetD geom "coordinates" (.arr [])
  if coords.truthy then
    let n ← pyLen coords
    if 2 ≤ n then
      let latV ← pyIndexJ coords 1
      let lonV ← pyIndexJ coords 0
      let lat ← asNum latV
      let lon ← asNum lonV
      let address ← parse_address props
      pure (some ⟨address, ⟨lat, lon⟩, feature⟩)
    else
      pure none
  else
    pure none

/-- The autocomplete feature loop (lines 560-584). -/
def autocomplete_features : List JValue → Except Failure (List AutocompleteResult)
  | [] => pure []
  | f :: fs => do
    let r ← autocomplete_feature f
    let rest ← autocomplete_features fs
    match r with
    | some x => pure (x :: rest)
    | none => pure rest

/-- The reverse_geocode feature loop (lines 511-524): every feature
becomes an Address, no skipping. -/
def reverse_features : List JValue → Except Failure (List Address)
  | [] => pure []
  | f :: fs => do
    let props ← pyGetD f "properties" (.obj [])
    let a ← parse_address props
    let rest ← reverse_features fs
    pure (a :: rest)

/-- The inner cell loop of distance_matrix parsing (lines 639-641):
per cell, target.get("distance", 0) then target.get("time", 0) are
appended to the distance and duration rows.  asNum restricts cell
values to numbers, per the modelling conventions. -/
def parse_cells : List JValue → Except Failure (List ℚ × List ℚ)
  | [] => .ok ([], [])
  | c :: cs => do
    let dV ← pyGetD c "distance" (.num 0)
    let tV ← pyGetD c "time" (.num 0)
    let d ← asNum dV
    let t ← asNum tV
    let rest ← parse_cells cs
    .ok (d :: rest.1, t :: rest.2)

/-- The outer row loop of distance_matrix parsing (lines 634-644): one
row per entry of sources_to_targets, in response order. -/
def parse_rows : List JValue → Except Failure (List (List ℚ) × List (List ℚ))
  | [] => .ok ([], [])
  | row :: rest => do
    let cells ← pyIter row
    let rc ← parse_cells cells
    let rr ← parse_rows rest
    .ok (rc.1 :: rr.1, rc.2 :: rr.2)

/-- GeoapifyProvider.geocode (lines 425-482). -/
def geocode (p : Provider) (query : String) (outcome : HttpOutcome) :
    Except Failure (List GeocodingResult) := do
  if is_blank query then
    throw (Failure.sdkError (.validationError "Query must be a non-empty string"))
  let response ← make_request p.timeout "GET" outcome
  let hasFeatures ← hasKey response "features"
  if hasFeatures then
    let featuresV ← pyGetItem response "features"
    let features ← pyIter featuresV
    geocode_features features
  else
    pure []

/-- GeoapifyProvider.reverse_geocode (lines 484-526). -/
def reverse_geocode (p : Provider) (location : Loc) (outcome : HttpOutcome) :
    Except Failure (List Address) := do
  validate_location location "location"
  let _ ← locAttrs location
  let response ← make_request p.timeout "GET" outcome
  let hasFeatures ← hasKey response "features"
  if hasFeatures then
    let featuresV ← pyGetItem response "features"
    let features ← pyIter featuresV
    reverse_features features
  else
    pure []

/-- GeoapifyProvider.autocomplete (lines 528-585). -/
def autocomplete (p : Provider) (query : String) (limit : ℤ) (outcome : HttpOutcome) :
    Except Failure (List AutocompleteResult) := do
  if is_blank query then
    throw (Failure.sdkError (.validationError "Query must be a non-empty string"))
  if limit < 1 ∨ 50 < limit then
    throw (Failure.sdkError (.validationError "Limit must be between 1 and 50"))
  let response ← make_request p.timeout "GET" outcome
  let hasFeatures ← hasKey response "features"
  if hasFeatures then
    let featuresV ← pyGetItem response "features"
    let features ← pyIter featuresV
    autocomplete_features features
  else
    pure []

/-- GeoapifyProvider.distance_matrix (lines 587-652): list validation,
the batch-size cap, the parameter-formatting attribute reads, the
request, and the grid parse with its missing-key fallback to empty
grids. -/
def distance_matrix (p : Provider) (sources targets : List Loc) (mode : TravelMode)
    (units : DistanceUnit) (outcome : HttpOutcome) : Except Failure DistanceMatrixResult := do
  validate_locations_list sources "sources"
  validate_locations_list targets "targets"
  if 10 < sources.length ∨ 10 < targets.length then
    throw (Failure.sdkError (.validationError "Maximum 10 sources and 10 targets are supported per request"))
  let _ ← join_locs sources
  let _ ← join_locs targets
  let response ← make_request p.timeout "GET" outcome
  let hasGrid ← hasKey response "sources_to_targets"
  if hasGrid then
    let gridV ← pyGetItem response "sources_to_targets"
    let rows ← pyIter gridV
    let grids ← parse_rows rows
    pure ⟨grids.1, grids.2, "metric", sources, targets⟩
  else
    pure ⟨[], [], "metric", sources, targets⟩

/-- GeoapifyProvider.route (lines 654-697).  The condition on line 689
is written if "features" and len(response.get("features", [])) > 0 in
the source; the string literal operand is constant-true, so only the
length test remains.  When a route feature exists, its properties
supply distance and time with default 0, and RouteInfo is constructed
from raw meters and seconds. -/
def route (p : Provider) (source target : Loc) (mode : TravelMode) (outcome : HttpOutcome) :
    Except Failure RouteInfo := do
  validate_location source "source"
  validate_location target "target"
  let _ ← locAttrs source
  let _ ← locAttrs target
  let response ← make_request p.timeout "GET" outcome
  let feats ← pyGetD response "features" (.arr [])
  let n ← pyLen feats
  if 0 < n then
    let featuresV ← pyGetItem response "features"
    let feature ← pyIndexJ featuresV 0
    let props ← pyGetD feature "properties" (.obj [])
    let dV ← pyGetD props "distance" (.num 0)
    let tV ← pyGetD props "time" (.num 0)
    let d ← asNum dV
    let t ← asNum tV
    RouteInfo.init (some d) (some t) none none
  else
    throw (Failure.sdkError (.apiError "No route found between the provided locations"))

/-- True exactly when the outcome is an error carrying a
ValidationError. -/
def isValidationFailure : Except Failure α → Bool
  | .error (.sdkError (.validationError _)) => true
  | _ => false

/-- True exactly when the outcome is an uncaught builtin Python
exception. -/
def isPyFailure : Except Failure α → Bool
  | .error (.pyError _) => true
  | _ => false

/-- True exactly when the operation succeeded. -/
def isOkB : Except Failure α → Bool
  | .ok _ => true
  | _ => false

/-- A locations-list element on which _validate_location can only
return normally or raise ValidationError: anything except a mapping
that has both keys bound to non-numeric values. -/
def locTame : Loc → Bool
  | .dict fields =>
    match lookupField fields "latitude", lookupField fields "longitude" with
    | some (.num _), some (.num _) => true
    | some _, none => true
    | none, _ => true
    | _, _ => false
  | _ => true

/-- True when the element is a GeoPoint (the declared element type of
the distance_matrix signature). -/
def Loc.isPoint : Loc → Bool
  | .point _ => true
  | _ => false

/-- The items of a JSON array, used to state grid correspondence. -/
def rowItems : JValue → List JValue
  | .arr items => items
  | _ => []

/-- Wellformedness of one distance-matrix cell: an object whose
distance and time entries, when present, are numbers. -/
def numOrAbsent (fields : List (String × JValue)) (key : String) : Bool :=
  match lookupField fields key with
  | none => true
  | some (.num _) => true
  | some _ => false

/-- Wellformedness of one distance-matrix cell. -/
def cellOk : JValue → Bool
  | .obj fields => numOrAbsent fields "distance" && numOrAbsent fields "time"
  | _ => false

/-- The wire distance of a cell, with the source default of 0. -/
def cellDistance : JValue → ℚ
  | .obj fields =>
    match lookupField fields "distance" with
    | some (.num q) => q
    | _ => 0
  | _ => 0

/-- The wire travel time of a cell, with the source default of 0. -/
def cellTime : JValue → ℚ
  | .obj fields =>
    match lookupField fields "time" with
    | some (.num q) => q
    | _ => 0
  | _ => 0

/-- Wellformedness of one response row against the expected number of
targets: an array of that many wellformed cells. -/
def rowOk (tlen : Nat) : JValue → Bool
  | .arr cells => cells.length == tlen && cells.all cellOk
  | _ => false

/-- Bind on a successful Except computation applies the continuation. -/
@[simp]
theorem ok_bind {α β : Type} (a : α) (f : α → Except Failure β) :
    (Except.ok a >>= f : Except Failure β) = f a := rfl

/-- Bind on a failed Except computation short-circuits. -/
@[simp]
theorem error_bind {α β : Type} (e : Failure) (f : α → Except Failure β) :
    (Except.error e >>= f : Except Failure β) = Except.error e := rfl

/-- Pure is the ok constructor. -/
@[simp]
theorem pure_ok {α : Type} (a : α) : (pure a : Except Failure α) = Except.ok a := rfl

/-- Throw is the error constructor. -/
@[simp]
theorem throw_error {α : Type} (e : Failure) : (throw e : Except Failure α) = Except.error e := rfl

/-- Inversion of a successful bind. -/
theorem exists_of_bind_ok {α β : Type} {x : Except Failure α} {f : α → Except Failure β} {b : β}
    (h : (x >>= f) = Except.ok b) : ∃ a, x = Except.ok a ∧ f a = Except.ok b := by
  cases x with
  | ok a => exact ⟨a, rfl, h⟩
  | error e => rw [error_bind] at h; exact Except.noConfusion h

/-- A GET request whose response has a success status and a decodable
body returns the decoded body. -/
theorem make_request_ok (timeout : Nat) (status : Nat) (text : String) (j : JValue)
    (h : status < 400) :
    make_request timeout "GET" (.response status text (some j)) = .ok j := by
  have hg : strUpper "GET" = "GET" := rfl
  rw [make_request, if_pos (Or.inl hg), if_neg (show ¬(status = 401 ∨ status = 403) by omega),
    if_neg (show ¬(status = 429) by omega), if_neg (show ¬(400 ≤ status) by omega)]
  rfl

/-- Reduction of point validation to the two range checks. -/
theorem validate_location_point (L G : ℚ) (name : String) :
    validate_location (.point ⟨L, G⟩) name =
      if ¬(-90 ≤ L ∧ L ≤ 90) then
        .error (.sdkError (.validationError (name ++ " latitude must be between -90 and 90")))
      else if ¬(-180 ≤ G ∧ G ≤ 180) then
        .error (.sdkError (.validationError (name ++ " longitude must be between -180 and 180")))
      else .ok () := by
  simp only [validate_location, asNum, pure_ok, ok_bind]
  by_cases h1 : -90 ≤ L ∧ L ≤ 90
  · simp only [if_neg (not_not_intro h1), pure_ok, ok_bind]
    by_cases h2 : -180 ≤ G ∧ G ≤ 180
    · simp only [if_neg (not_not_intro h2), pure_ok, ok_bind]
    · simp only [if_pos h2, throw_error, error_bind]
  · simp only [if_pos h1, throw_error, error_bind]

/-- Characterization of the ValidationError discriminator. -/
theorem isValidationFailure_iff {α : Type} (x : Except Failure α) :
    isValidationFailure x = true ↔ ∃ m, x = .error (.sdkError (.validationError m)) := by
  cases x with
  | ok a => simp [isValidationFailure]
  | error e =>
    cases e with
    | pyError m => simp [isValidationFailure]
    | sdkError s => cases s <;> simp [isValidationFailure]

/-- C7: point validation accepts a GeoPoint, or a mapping with latitude
and longitude keys, and rejects anything else with ValidationError; a
latitude of absolute value above 90 or a longitude of absolute value
above 180 fails with ValidationError naming the field, and in-range
coordinates succeed. -/
theorem C7_point_validation (L G : ℚ) (name : String) :
    (90 < |L| →
      validate_location (.point ⟨L, G⟩) name
        = .error (.sdkError (.validationError (name ++ " latitude must be between -90 and 90")))) ∧
    (|L| ≤ 90 → 180 < |G| →
      validate_location (.point ⟨L, G⟩) name
        = .error (.sdkError (.validationError (name ++ " longitude must be between -180 and 180")))) ∧
    (|L| ≤ 90 → |G| ≤ 180 → validate_location (.point ⟨L, G⟩) name = .ok ()) ∧
    (validate_location (.dict [("latitude", JValue.num L), ("longitude", JValue.num G)]) name
      = validate_location (.point ⟨L, G⟩) name) ∧
    (validate_location Loc.other name
      = .error (.sdkError (.validationError
          (name ++ " must be a GeoPoint or dict with latitude and longitude")))) ∧
    (validate_location (.dict [("latitude", JValue.num L)]) name
      = .error (.sdkError (.validationError
          (name ++ " must have latitude and longitude keys")))) := by
  refine ⟨?_, ?_, ?_, ?_, rfl, rfl⟩
  · intro h
    rw [validate_location_point,
      if_pos (show ¬(-90 ≤ L ∧ L ≤ 90) from fun hc => absurd (abs_le.mpr hc) (not_le.mpr h))]
  · intro hL hG
    rw [validate_location_point, if_neg (not_not_intro (abs_le.mp hL)),
      if_pos (show ¬(-180 ≤ G ∧ G ≤ 180) from fun hc => absurd (abs_le.mpr hc) (not_le.mpr hG))]
  · intro hL hG
    rw [validate_location_point, if_neg (not_not_intro (abs_le.mp hL)),
      if_neg (not_not_intro (abs_le.mp hG))]
  · rfl

/-- C7 witness: concrete instances of the point-validation theorem at
latitude 100 (rejected) and at the origin (accepted). -/
theorem C7_point_validation_witness :
    (90 : ℚ) < |(100 : ℚ)| ∧
    validate_location (.point ⟨100, 0⟩) "location"
      = .error (.sdkError (.validationError "location latitude must be between -90 and 90")) ∧
    validate_location (.point ⟨0, 0⟩) "location" = .ok () :=
  ⟨by norm_num,
    by
      have h := (C7_point_validation 100 0 "location").1 (by norm_num)
      simpa using h,
    by
      have h := (C7_point_validation 0 0 "location").2.2.1 (by norm_num) (by norm_num)
      exact h⟩

/-- C2 counterexample: the accessors truncate toward zero, so for the
reachable RouteInfo value with distance_km = -1/2000 the distance
accessor is 0 while the integer floor of distance_km * 1000 is -1. -/
theorem C2_counterexample :
    RouteInfo.init none none (some (-1/2000)) (some 1) = Except.ok ⟨-1/2000, 1⟩ ∧
    RouteInfo.distance ⟨-1/2000, 1⟩ ≠ ⌊((-1/2000 : ℚ) * 1000)⌋ := by
  refine ⟨rfl, ?_⟩
  show pyInt ((-1/2000 : ℚ) * 1000) ≠ ⌊((-1/2000 : ℚ) * 1000)⌋
  have harg : ((-1/2000 : ℚ) * 1000) = -(1/2) := by norm_num
  have hneg : ¬(0 : ℚ) ≤ -(1/2) := by norm_num
  unfold pyInt
  rw [harg, if_neg hneg, Int.ceil_neg]
  norm_num

/-- C2 amended: the meter and second accessors are truncation toward
zero of distance_km * 1000 and duration_minutes * 60; whenever the
stored values are nonnegative this equals the integer floor, and the
meter and second aliases agree with the accessors. -/
theorem C2_floor_accessors (r : RouteInfo) (hd : 0 ≤ r.distance_km)
    (hu : 0 ≤ r.duration_minutes) :
    r.distance = ⌊r.distance_km * 1000⌋ ∧ r.duration = ⌊r.duration_minutes * 60⌋ ∧
    r.distance_meters = r.distance ∧ r.duration_seconds = r.duration := by
  refine ⟨?_, ?_, rfl, rfl⟩
  · unfold RouteInfo.distance pyInt
    rw [if_pos (mul_nonneg hd (by norm_num))]
  · unfold RouteInfo.duration pyInt
    rw [if_pos (mul_nonneg hu (by norm_num))]

/-- C2 witness: the amended accessor theorem at the stored value 5 km,
5 minutes. -/
theorem C2_floor_accessors_witness :
    (0 : ℚ) ≤ 5 ∧ RouteInfo.distance ⟨5, 5⟩ = ⌊(5 : ℚ) * 1000⌋ ∧
    RouteInfo.duration ⟨5, 5⟩ = ⌊(5 : ℚ) * 60⌋ :=
  ⟨by norm_num, (C2_floor_accessors ⟨5, 5⟩ (by norm_num) (by norm_num)).1,
    (C2_floor_accessors ⟨5, 5⟩ (by norm_num) (by norm_num)).2.1⟩

/-- C6: RouteInfo construction fails (with the TypeError the source
raises) when neither member of the distance pair or neither member of
the duration pair is supplied, and succeeds when exactly one member of
each pair is supplied. -/
theorem C6_exactly_one_of_each_pair (distance duration distance_km duration_minutes : Option ℚ) :
    ((distance = none ∧ distance_km = none) ∨ (duration = none ∧ duration_minutes = none) →
      isPyFailure (RouteInfo.init distance duration distance_km duration_minutes) = true) ∧
    (∀ d u,
      ((distance = some d ∧ distance_km = none) ∨ (distance = none ∧ distance_km = some d)) →
      ((duration = some u ∧ duration_minutes = none) ∨ (duration = none ∧ duration_minutes = some u)) →
      isOkB (RouteInfo.init distance duration distance_km duration_minutes) = true) := by
  constructor
  · rintro (⟨h1, h2⟩ | ⟨h1, h2⟩) <;> subst h1 <;> subst h2
    · rfl
    · rcases distance_km with _ | dk <;> rcases distance with _ | dd <;> rfl
  · rintro d u (⟨h1, h2⟩ | ⟨h1, h2⟩) (⟨h3, h4⟩ | ⟨h3, h4⟩) <;>
      subst h1 <;> subst h2 <;> subst h3 <;> subst h4 <;> rfl

/-- C6 witness: constructing with nothing supplied fails, constructing
from raw meters and seconds succeeds. -/
theorem C6_exactly_one_of_each_pair_witness :
    isPyFailure (RouteInfo.init none none none none) = true ∧
    isOkB (RouteInfo.init (some 5000) (some 300) none none) = true :=
  ⟨(C6_exactly_one_of_each_pair none none none none).1 (Or.inl ⟨rfl, rfl⟩),
    (C6_exactly_one_of_each_pair (some 5000) (some 300) none none).2 5000 300
      (Or.inl ⟨rfl, rfl⟩) (Or.inl ⟨rfl, rfl⟩)⟩

/-- C4: in the shared request helper, a response with status 401 or 403
raises AuthenticationError, 429 raises RateLimitError, any other
status of at least 400 raises APIError whose message carries the
status code and the body text, and a response below 400 whose body
decodes returns the decoded body. -/
theorem C4_make_request_classification (timeout : Nat) (method : String) (status : Nat)
    (text : String) (body : Option JValue)
    (hm : strUpper method = "GET" ∨ strUpper method = "POST") :
    (status = 401 ∨ status = 403 →
      make_request timeout method (.response status text body)
        = .error (.sdkError (.authenticationError "Invalid API key or insufficient permissions"))) ∧
    (status = 429 →
      make_request timeout method (.response status text body)
        = .error (.sdkError (.rateLimitError "API rate limit exceeded. Please try again later."))) ∧
    (400 ≤ status → status ≠ 401 → status ≠ 403 → status ≠ 429 →
      make_request timeout method (.response status text body)
        = .error (.sdkError (.apiError
            ("API request failed with status " ++ toString status ++ ": " ++ text)))) ∧
    (status < 400 → ∀ j, body = some j →
      make_request timeout method (.response status text body) = .ok j) := by
  refine ⟨?_, ?_, ?_, ?_⟩
  · intro h
    rw [make_request, if_pos hm, if_pos h]
  · intro h
    rw [make_request, if_pos hm, if_neg (show ¬(status = 401 ∨ status = 403) by omega), if_pos h]
  · intro h h1 h2 h3
    rw [make_request, if_pos hm, if_neg (show ¬(status = 401 ∨ status = 403) by omega),
      if_neg h3, if_pos h]
  · intro h j hj
    subst hj
    rw [make_request, if_pos hm, if_neg (show ¬(status = 401 ∨ status = 403) by omega),
      if_neg (show ¬(status = 429) by omega), if_neg (show ¬(400 ≤ status) by omega)]
    rfl

/-- C4 witness: the four classifications at concrete statuses 401, 429,
500 and 200. -/
theorem C4_make_request_classification_witness :
    make_request 10 "GET" (.response 401 "denied" none)
      = .error (.sdkError (.authenticationError "Invalid API key or insufficient permissions")) ∧
    make_request 10 "GET" (.response 429 "slow down" none)
      = .error (.sdkError (.rateLimitError "API rate limit exceeded. Please try again later.")) ∧
    make_request 10 "GET" (.response 500 "boom" none)
      = .error (.sdkError (.apiError
          ("API request failed with status " ++ toString 500 ++ ": " ++ "boom"))) ∧
    make_request 10 "GET" (.response 200 "" (some JValue.null)) = .ok JValue.null :=
  ⟨(C4_make_request_classification 10 "GET" 401 "denied" none (Or.inl rfl)).1 (Or.inl rfl),
    (C4_make_request_classification 10 "GET" 429 "slow down" none (Or.inl rfl)).2.1 rfl,
    (C4_make_request_classification 10 "GET" 500 "boom" none (Or.inl rfl)).2.2.1
      (by omega) (by omega) (by omega) (by omega),
    (C4_make_request_classification 10 "GET" 200 "" (some JValue.null) (Or.inl rfl)).2.2.2
      (by omega) JValue.null rfl⟩

/-- C9: with a valid query, an in-range limit and a validated location,
a decoded response without a features key, or with an empty features
array, makes geocode, reverse_geocode and autocomplete return the
empty list rather than an error. -/
theorem C9_empty_features (p : Provider) (query : String) (limit : ℤ) (loc : GeoPoint)
    (status : Nat) (text : String) (fields : List (String × JValue))
    (hq : is_blank query = false)
    (hl1 : 1 ≤ limit) (hl2 : limit ≤ 50)
    (hloc : validate_location (.point loc) "location" = .ok ())
    (hstatus : status < 400)
    (hfeat : lookupField fields "features" = none ∨
      lookupField fields "features" = some (JValue.arr [])) :
    geocode p query (.response status text (some (.obj fields))) = .ok [] ∧
    reverse_geocode p (.point loc) (.response status text (some (.obj fields))) = .ok [] ∧
    autocomplete p query limit (.response status text (some (.obj fields))) = .ok [] := by
  have hmr := make_request_ok p.timeout status text (JValue.obj fields) hstatus
  have hlim : ¬(limit < 1 ∨ 50 < limit) := by omega
  refine ⟨?_, ?_, ?_⟩
  · rcases hfeat with hf | hf <;>
      simp [geocode, hq, hmr, hasKey, hf, pyGetItem, pyIter, geocode_features]
  · rcases hfeat with hf | hf <;>
      simp [reverse_geocode, hloc, locAttrs, hmr, hasKey, hf, pyGetItem, pyIter,
        reverse_features]
  · rcases hfeat with hf | hf <;>
      simp [autocomplete, hq, hlim, hmr, hasKey, hf, pyGetItem, pyIter,
        autocomplete_features]

/-- C9 witness: the empty-result theorem at a concrete query, location
and featureless response. -/
theorem C9_empty_features_witness :
    geocode ⟨"key", 10⟩ "Berlin" (.response 200 "" (some (JValue.obj []))) = .ok [] ∧
    reverse_geocode ⟨"key", 10⟩ (.point ⟨0, 0⟩) (.response 200 "" (some (JValue.obj []))) = .ok [] ∧
    autocomplete ⟨"key", 10⟩ "Berlin" 5 (.response 200 "" (some (JValue.obj []))) = .ok [] :=
  C9_empty_features ⟨"key", 10⟩ "Berlin" 5 ⟨0, 0⟩ 200 "" [] rfl (by omega) (by omega) rfl
    (by omega) (Or.inl rfl)

/-- C5: a route call on validated endpoints whose decoded response has
no features key, or an empty features array, fails with the APIError
saying that no route was found. -/
theorem C5_no_route_error (p : Provider) (src tgt : GeoPoint) (mode : TravelMode)
    (status : Nat) (text : String) (fields : List (String × JValue))
    (hvs : validate_location (.point src) "source" = .ok ())
    (hvt : validate_location (.point tgt) "target" = .ok ())
    (hstatus : status < 400)
    (hfeat : lookupField fields "features" = none ∨
      lookupField fields "features" = some (JValue.arr [])) :
    route p (.point src) (.point tgt) mode (.response status text (some (.obj fields)))
      = .error (.sdkError (.apiError "No route found between the provided locations")) := by
  have hmr := make_request_ok p.timeout status text (JValue.obj fields) hstatus
  rcases hfeat with hf | hf <;>
    simp [route, hvs, hvt, locAttrs, hmr, pyGetD, hf, pyLen]

/-- C5 witness: the no-route theorem at a concrete validated pair of
endpoints and a featureless successful response. -/
theorem C5_no_route_error_witness :
    route ⟨"key", 10⟩ (.point ⟨0, 0⟩) (.point ⟨1, 1⟩) TravelMode.driving
      (.response 200 "" (some (JValue.obj [])))
      = .error (.sdkError (.apiError "No route found between the provided locations")) :=
  C5_no_route_error ⟨"key", 10⟩ ⟨0, 0⟩ ⟨1, 1⟩ TravelMode.driving 200 "" [] rfl rfl
    (by omega) (Or.inl rfl)

/-- C10: a route call whose decoded response has at least one feature
still succeeds when the first feature lacks the distance key or the
time key in its properties; the missing value defaults to 0, giving a
RouteInfo whose meters or seconds accessor is 0. -/
theorem C10_route_missing_defaults (p : Provider) (src tgt : GeoPoint) (mode : TravelMode)
    (status : Nat) (text : String) (fields ffields props : List (String × JValue))
    (feats : List JValue)
    (hvs : validate_location (.point src) "source" = .ok ())
    (hvt : validate_location (.point tgt) "target" = .ok ())
    (hstatus : status < 400)
    (hfeat : lookupField fields "features" = some (JValue.arr (JValue.obj ffields :: feats)))
    (hprops : lookupField ffields "properties" = some (JValue.obj props)) :
    (lookupField props "distance" = none → ∀ t, lookupField props "time" = some (JValue.num t) →
      route p (.point src) (.point tgt) mode (.response status text (some (.obj fields)))
        = .ok ⟨0 / 1000, t / 60⟩ ∧ RouteInfo.distance ⟨0 / 1000, t / 60⟩ = 0) ∧
    (∀ d, lookupField props "distance" = some (JValue.num d) → lookupField props "time" = none →
      route p (.point src) (.point tgt) mode (.response status text (some (.obj fields)))
        = .ok ⟨d / 1000, 0 / 60⟩ ∧ RouteInfo.duration ⟨d / 1000, 0 / 60⟩ = 0) ∧
    (lookupField props "distance" = none → lookupField props "time" = none →
      route p (.point src) (.point tgt) mode (.response status text (some (.obj fields)))
        = .ok ⟨0 / 1000, 0 / 60⟩ ∧
      RouteInfo.distance ⟨0 / 1000, 0 / 60⟩ = 0 ∧ RouteInfo.duration ⟨0 / 1000, 0 / 60⟩ = 0) := by
  have hmr := make_request_ok p.timeout status text (JValue.obj fields) hstatus
  refine ⟨?_, ?_, ?_⟩
  · intro hd t ht
    constructor
    · simp [route, hvs, hvt, locAttrs, hmr, pyGetD, hfeat, pyLen, pyGetItem, pyIndexJ,
        List.get?, hprops, hd, ht, asNum, RouteInfo.init]
    · simp [RouteInfo.distance, pyInt]
  · intro d hd ht
    constructor
    · simp [route, hvs, hvt, locAttrs, hmr, pyGetD, hfeat, pyLen, pyGetItem, pyIndexJ,
        List.get?, hprops, hd, ht, asNum, RouteInfo.init]
    · simp [RouteInfo.duration, pyInt]
  · intro hd ht
    refine ⟨?_, ?_, ?_⟩
    · simp [route, hvs, hvt, locAttrs, hmr, pyGetD, hfeat, pyLen, pyGetItem, pyIndexJ,
        List.get?, hprops, hd, ht, asNum, RouteInfo.init]
    · simp [RouteInfo.distance, pyInt]
    · simp [RouteInfo.duration, pyInt]

/-- C10 witness: a response with one route feature whose properties
carry neither distance nor time yields the zero RouteInfo. -/
theorem C10_route_missing_defaults_witness :
    route ⟨"key", 10⟩ (.point ⟨0, 0⟩) (.point ⟨1, 1⟩) TravelMode.driving
      (.response 200 "" (some (JValue.obj
        [("features", JValue.arr [JValue.obj [("properties", JValue.obj [])]])])))
      = .ok ⟨0 / 1000, 0 / 60⟩ ∧
    RouteInfo.distance ⟨0 / 1000, 0 / 60⟩ = 0 ∧ RouteInfo.duration ⟨0 / 1000, 0 / 60⟩ = 0 := by
  have h := (C10_route_missing_defaults ⟨"key", 10⟩ ⟨0, 0⟩ ⟨1, 1⟩ TravelMode.driving 200 ""
    [("features", JValue.arr [JValue.obj [("properties", JValue.obj [])]])]
    [("properties", JValue.obj [])] [] [] rfl rfl (by omega) rfl rfl).2.2 rfl rfl
  exact ⟨h.1, h.2.1, h.2.2⟩

/-- C8: a feature whose wire coordinates list starts with x then y maps
to a result whose GeoPoint has latitude y (the second wire element) and
longitude x (the first wire element), in both the geocode and the
autocomplete feature loops. -/
theorem C8_coordinate_swap (fields geomFields : List (String × JValue)) (x y : ℚ)
    (rest : List JValue)
    (hg : lookupField fields "geometry" = some (JValue.obj geomFields))
    (hc : lookupField geomFields "coordinates"
      = some (JValue.arr (JValue.num x :: JValue.num y :: rest))) :
    (∀ r, geocode_feature (JValue.obj fields) = .ok (some r) → r.location = ⟨y, x⟩) ∧
    (∀ r, autocomplete_feature (JValue.obj fields) = .ok (some r) → r.location = ⟨y, x⟩) := by
  have hlen : 2 ≤ (JValue.num x :: JValue.num y :: rest).length := by
    simp [List.length_cons]
  constructor
  · intro r hr
    simp only [geocode_feature, pyGetD, hg, hc, ok_bind, Option.getD_some, JValue.truthy,
      List.isEmpty_cons, Bool.not_false, if_true, pyLen, if_pos hlen, pyIndexJ, List.get?,
      asNum] at hr
    obtain ⟨address, hA, hr⟩ := exists_of_bind_ok hr
    obtain ⟨rank, hR, hr⟩ := exists_of_bind_ok hr
    obtain ⟨c1, h1, hr⟩ := exists_of_bind_ok hr
    obtain ⟨c2, h2, hr⟩ := exists_of_bind_ok hr
    obtain ⟨c3, h3, hr⟩ := exists_of_bind_ok hr
    obtain ⟨c4, h4, hr⟩ := exists_of_bind_ok hr
    rw [pure_ok] at hr
    rw [← Option.some.inj (Except.ok.inj hr)]
  · intro r hr
    simp only [autocomplete_feature, pyGetD, hg, hc, ok_bind, Option.getD_some, JValue.truthy,
      List.isEmpty_cons, Bool.not_false, if_true, pyLen, if_pos hlen, pyIndexJ, List.get?,
      asNum] at hr
    obtain ⟨address, hA, hr⟩ := exists_of_bind_ok hr
    rw [pure_ok] at hr
    rw [← Option.some.inj (Except.ok.inj hr)]

/-- C8 witness: the coordinate-swap theorem at the concrete wire
coordinates 3, 4, whose parsed GeoPoint is latitude 4, longitude 3. -/
theorem C8_coordinate_swap_witness :
    geocode_feature (JValue.obj [("geometry", JValue.obj
        [("coordinates", JValue.arr [JValue.num 3, JValue.num 4])])])
      = .ok (some ⟨⟨4, 3⟩, ⟨.null, .null, .null, .null, .null, .null, .null, .null⟩,
          .null, .null, .null, .null,
          JValue.obj [("geometry", JValue.obj
            [("coordinates", JValue.arr [JValue.num 3, JValue.num 4])])]⟩) ∧
    GeocodingResult.location ⟨⟨4, 3⟩, ⟨.null, .null, .null, .null, .null, .null, .null, .null⟩,
        .null, .null, .null, .null,
        JValue.obj [("geometry", JValue.obj
          [("coordinates", JValue.arr [JValue.num 3, JValue.num 4])])]⟩ = ⟨4, 3⟩ :=
  ⟨rfl,
    (C8_coordinate_swap [("geometry", JValue.obj
        [("coordinates", JValue.arr [JValue.num 3, JValue.num 4])])]
      [("coordinates", JValue.arr [JValue.num 3, JValue.num 4])] 3 4 [] rfl rfl).1 _ rfl⟩

/-- Point validation on a GeoPoint either succeeds or raises a
ValidationError. -/
theorem validate_point_ok_or_validation (L G : ℚ) (name : String) :
    validate_location (.point ⟨L, G⟩) name = .ok () ∨
      isValidationFailure (validate_location (.point ⟨L, G⟩) name) = true := by
  rw [validate_location_point]
  by_cases h1 : -90 ≤ L ∧ L ≤ 90
  · by_cases h2 : -180 ≤ G ∧ G ≤ 180
    · left; rw [if_neg (not_not_intro h1), if_neg (not_not_intro h2)]
    · right; rw [if_neg (not_not_intro h1), if_pos h2]; rfl
  · right; rw [if_pos h1]; rfl

/-- Validation of a mapping with numeric coordinate values agrees with
validation of the corresponding GeoPoint. -/
theorem validate_location_dict_nums (fields : List (String × JValue)) (a b : ℚ) (name : String)
    (hla : lookupField fields "latitude" = some (JValue.num a))
    (hlo : lookupField fields "longitude" = some (JValue.num b)) :
    validate_location (.dict fields) name = validate_location (.point ⟨a, b⟩) name := by
  simp only [validate_location, hla, hlo, asNum, pure_ok, ok_bind]

/-- On a tame element, point validation either succeeds or raises a
ValidationError; it cannot raise a builtin Python exception. -/
theorem tame_validate (l : Loc) (name : String) (h : locTame l = true) :
    validate_location l name = .ok () ∨
      isValidationFailure (validate_location l name) = true := by
  cases l with
  | point p => exact validate_point_ok_or_validation p.latitude p.longitude name
  | other => right; rfl
  | dict fields =>
    rcases hla : lookupField fields "latitude" with _ | la
    · right
      simp only [validate_location, hla]
      rfl
    · rcases hlo : lookupField fields "longitude" with _ | lo
      · right
        simp only [validate_location, hla, hlo]
        rfl
      · rw [locTame, hla, hlo] at h
        cases la <;> cases lo <;> simp at h
        rw [validate_location_dict_nums fields _ _ name hla hlo]
        exact validate_point_ok_or_validation _ _ name

/-- The per-element validation loop on a tame list either succeeds or
raises a ValidationError. -/
theorem each_validate_ok_or_validation (ls : List Loc) (name : String) (idx : Nat)
    (h : ∀ l ∈ ls, locTame l = true) :
    validate_each ls name idx = .ok () ∨
      isValidationFailure (validate_each ls name idx) = true := by
  induction ls generalizing idx with
  | nil => left; rfl
  | cons l rest ih =>
    rcases tame_validate l (name ++ "[" ++ toString idx ++ "]") (h l (by simp)) with hv | hv
    · have hrest := ih (idx + 1) (fun x hx => h x (by simp [hx]))
      simpa only [validate_each, hv, ok_bind] using hrest
    · right
      rw [isValidationFailure_iff] at hv
      obtain ⟨m, hm⟩ := hv
      simp only [validate_each, hm, error_bind]
      rfl

/-- List validation on a tame list either succeeds or raises a
ValidationError. -/
theorem list_validate_ok_or_validation (ls : List Loc) (name : String)
    (h : ∀ l ∈ ls, locTame l = true) :
    validate_locations_list ls name = .ok () ∨
      isValidationFailure (validate_locations_list ls name) = true := by
  cases hls : ls.isEmpty
  · have he := each_validate_ok_or_validation ls name 0 h
    simpa only [validate_locations_list, hls, Bool.false_eq_true, if_false, pure_ok,
      ok_bind] using he
  · right
    simp only [validate_locations_list, hls, if_true, throw_error, error_bind]
    rfl

/-- C3 counterexample: with 11 sources that are mappings carrying a
non-numeric latitude, the call fails before any request with an
uncaught TypeError, not with a ValidationError. -/
theorem C3_counterexample :
    distance_matrix ⟨"key", 10⟩
        (List.replicate 11 (Loc.dict [("latitude", JValue.str "x"), ("longitude", JValue.num 0)]))
        [Loc.point ⟨0, 0⟩] TravelMode.driving DistanceUnit.kilometers HttpOutcome.timeout
      = Except.error (Failure.pyError "TypeError: value is not a number") ∧
    isValidationFailure (distance_matrix ⟨"key", 10⟩
        (List.replicate 11 (Loc.dict [("latitude", JValue.str "x"), ("longitude", JValue.num 0)]))
        [Loc.point ⟨0, 0⟩] TravelMode.driving DistanceUnit.kilometers HttpOutcome.timeout)
      = false :=
  ⟨rfl, rfl⟩

/-- C3 amended: when every element that is a mapping with both keys has
numeric values (in particular when every element is a GeoPoint), more
than 10 sources or more than 10 targets makes distance_matrix fail
with a ValidationError, whatever the transport would have answered:
no request outcome is ever consulted. -/
theorem C3_batch_cap (p : Provider) (sources targets : List Loc) (mode : TravelMode)
    (units : DistanceUnit)
    (hs : ∀ l ∈ sources, locTame l = true) (ht : ∀ l ∈ targets, locTame l = true)
    (hlen : 10 < sources.length ∨ 10 < targets.length) :
    ∀ outcome, isValidationFailure
      (distance_matrix p sources targets mode units outcome) = true := by
  intro outcome
  rcases list_validate_ok_or_validation sources "sources" hs with h1 | h1
  · rcases list_validate_ok_or_validation targets "targets" ht with h2 | h2
    · simp only [distance_matrix, h1, h2, ok_bind, if_pos hlen, throw_error, error_bind]
      rfl
    · rw [isValidationFailure_iff] at h2
      obtain ⟨m, hm⟩ := h2
      simp only [distance_matrix, h1, ok_bind, hm, error_bind]
      rfl
  · rw [isValidationFailure_iff] at h1
    obtain ⟨m, hm⟩ := h1
    simp only [distance_matrix, hm, error_bind]
    rfl

/-- C3 witness: 11 valid GeoPoint sources fail with a ValidationError
without the transport being consulted. -/
theorem C3_batch_cap_witness :
    isValidationFailure (distance_matrix ⟨"key", 10⟩
      (List.replicate 11 (Loc.point ⟨0, 0⟩)) [Loc.point ⟨0, 0⟩]
      TravelMode.driving DistanceUnit.kilometers HttpOutcome.timeout) = true :=
  C3_batch_cap ⟨"key", 10⟩ (List.replicate 11 (Loc.point ⟨0, 0⟩)) [Loc.point ⟨0, 0⟩]
    TravelMode.driving DistanceUnit.kilometers (by decide) (by decide) (by decide)
    HttpOutcome.timeout

/-- A wellformed cell yields its wire distance and time through the
defaulting get calls. -/
theorem cell_fields (c : JValue) (h : cellOk c = true) :
    pyGetD c "distance" (.num 0) = .ok (.num (cellDistance c)) ∧
    pyGetD c "time" (.num 0) = .ok (.num (cellTime c)) := by
  cases c with
  | obj f =>
    rw [cellOk, Bool.and_eq_true] at h
    obtain ⟨hd, ht⟩ := h
    rw [numOrAbsent] at hd
    rw [numOrAbsent] at ht
    constructor
    · rcases hld : lookupField f "distance" with _ | dv
      · simp [pyGetD, hld, cellDistance]
      · rw [hld] at hd
        cases dv <;> simp [pyGetD, hld, cellDistance] at hd ⊢
    · rcases hlt : lookupField f "time" with _ | tv
      · simp [pyGetD, hlt, cellTime]
      · rw [hlt] at ht
        cases tv <;> simp [pyGetD, hlt, cellTime] at ht ⊢
  | null => simp [cellOk] at h
  | bool b => simp [cellOk] at h
  | num q => simp [cellOk] at h
  | str s => simp [cellOk] at h
  | arr items => simp [cellOk] at h

/-- The cell loop maps wellformed cells to their wire distances and
times, in order. -/
theorem parse_cells_ok_all (cells : List JValue) (h : ∀ c ∈ cells, cellOk c = true) :
    parse_cells cells = .ok (cells.map cellDistance, cells.map cellTime) := by
  induction cells with
  | nil => rfl
  | cons c cs ih =>
    have hc := cell_fields c (h c (by simp))
    have hrest := ih (fun x hx => h x (by simp [hx]))
    simp only [parse_cells, hc.1, hc.2, asNum, ok_bind, hrest, List.map_cons]

/-- A wellformed row is an array of exactly the expected number of
cells. -/
theorem rowItems_length_of_rowOk (r : JValue) (tlen : Nat) (h : rowOk tlen r = true) :
    (rowItems r).length = tlen := by
  cases r with
  | arr cells =>
    rw [rowOk, Bool.and_eq_true] at h
    obtain ⟨h1, _⟩ := h
    rw [beq_iff_eq] at h1
    simpa [rowItems] using h1
  | null => simp [rowOk] at h
  | bool b => simp [rowOk] at h
  | num q => simp [rowOk] at h
  | str s => simp [rowOk] at h
  | obj f => simp [rowOk] at h

/-- The cells of a wellformed row all satisfy cellOk. -/
theorem cells_ok_of_rowOk (r : JValue) (tlen : Nat) (h : rowOk tlen r = true) :
    ∀ c ∈ rowItems r, cellOk c = true := by
  cases r with
  | arr cells =>
    rw [rowOk, Bool.and_eq_true] at h
    obtain ⟨_, h2⟩ := h
    rw [List.all_eq_true] at h2
    simpa [rowItems] using h2
  | null => simp [rowOk] at h
  | bool b => simp [rowOk] at h
  | num q => simp [rowOk] at h
  | str s => simp [rowOk] at h
  | obj f => simp [rowOk] at h

/-- The row loop maps wellformed rows to the parallel distance and
duration grids, in response order. -/
theorem parse_rows_ok_all (rows : List JValue) (tlen : Nat)
    (h : ∀ row ∈ rows, rowOk tlen row = true) :
    parse_rows rows = .ok (rows.map (fun r => (rowItems r).map cellDistance),
      rows.map (fun r => (rowItems r).map cellTime)) := by
  induction rows with
  | nil => rfl
  | cons row rest ih =>
    have hr := h row (by simp)
    have hrest := ih (fun x hx => h x (by simp [hx]))
    have hcells := parse_cells_ok_all (rowItems row) (cells_ok_of_rowOk row tlen hr)
    cases row with
    | arr cells =>
      simp only [rowItems] at hcells
      simp only [parse_rows, pyIter, ok_bind, hcells, hrest, rowItems, List.map_cons]
    | null => simp [rowOk] at hr
    | bool b => simp [rowOk] at hr
    | num q => simp [rowOk] at hr
    | str s => simp [rowOk] at hr
    | obj f => simp [rowOk] at hr

/-- The parameter-formatting comprehension succeeds on a list of
GeoPoints. -/
theorem join_locs_points (ls : List Loc) (h : ∀ l ∈ ls, Loc.isPoint l = true) :
    ∃ v, join_locs ls = .ok v := by
  induction ls with
  | nil => exact ⟨[], rfl⟩
  | cons l rest ih =>
    obtain ⟨v, hv⟩ := ih (fun x hx => h x (by simp [hx]))
    cases l with
    | point q => exact ⟨(q.latitude, q.longitude) :: v, by simp [join_locs, locAttrs, hv]⟩
    | dict f => simpa [Loc.isPoint] using h (.dict f) (by simp)
    | other => simpa [Loc.isPoint] using h .other (by simp)

/-- C1 counterexample: a validated one-source, one-target call whose
decoded response lacks the sources_to_targets key returns grids with
zero rows, not one row: the grid dimensions mirror the response, not
the inputs. -/
theorem C1_counterexample :
    distance_matrix ⟨"key", 10⟩ [Loc.point ⟨0, 0⟩] [Loc.point ⟨0, 0⟩] TravelMode.driving
        DistanceUnit.kilometers (HttpOutcome.response 200 "" (some (JValue.obj [])))
      = Except.ok ⟨[], [], "metric", [Loc.point ⟨0, 0⟩], [Loc.point ⟨0, 0⟩]⟩ ∧
    ([] : List (List ℚ)).length ≠ [Loc.point ⟨0, 0⟩].length :=
  ⟨rfl, by simp⟩

/-- C1 amended: when the decoded response carries a sources_to_targets
grid with one wellformed row of one wellformed cell per source and
target, the result grids have exactly len(sources) rows and
len(targets) columns, cell [i][j] of the distance grid is the wire
distance of response cell [i][j] (source i to target j), cell [i][j]
of the duration grid is its wire time, and the inputs are echoed. -/
theorem C1_grid_mirrors_response (p : Provider) (sources targets : List Loc)
    (mode : TravelMode) (units : DistanceUnit) (status : Nat) (text : String)
    (fields : List (String × JValue)) (rows : List JValue)
    (hs : validate_locations_list sources "sources" = .ok ())
    (ht : validate_locations_list targets "targets" = .ok ())
    (hslen : sources.length ≤ 10) (htlen : targets.length ≤ 10)
    (hsp : ∀ l ∈ sources, Loc.isPoint l = true) (htp : ∀ l ∈ targets, Loc.isPoint l = true)
    (hstatus : status < 400)
    (hgrid : lookupField fields "sources_to_targets" = some (JValue.arr rows))
    (hrows : rows.length = sources.length)
    (hcells : ∀ row ∈ rows, rowOk targets.length row = true) :
    distance_matrix p sources targets mode units (.response status text (some (.obj fields)))
      = .ok ⟨rows.map (fun r => (rowItems r).map cellDistance),
             rows.map (fun r => (rowItems r).map cellTime), "metric", sources, targets⟩ ∧
    (rows.map (fun r => (rowItems r).map cellDistance)).length = sources.length ∧
    (rows.map (fun r => (rowItems r).map cellTime)).length = sources.length ∧
    (∀ drow ∈ rows.map (fun r => (rowItems r).map cellDistance),
      drow.length = targets.length) ∧
    (∀ drow ∈ rows.map (fun r => (rowItems r).map cellTime),
      drow.length = targets.length) ∧
    (∀ i j, i < sources.length → j < targets.length →
      ((rows.map (fun r => (rowItems r).map cellDistance)).getD i []).getD j 0
        = cellDistance ((rowItems (rows.getD i JValue.null)).getD j JValue.null) ∧
      ((rows.map (fun r => (rowItems r).map cellTime)).getD i []).getD j 0
        = cellTime ((rowItems (rows.getD i JValue.null)).getD j JValue.null)) := by
  obtain ⟨vs, hvs⟩ := join_locs_points sources hsp
  obtain ⟨vt, hvt⟩ := join_locs_points targets htp
  have hmr := make_request_ok p.timeout status text (JValue.obj fields) hstatus
  have hparse := parse_rows_ok_all rows targets.length hcells
  have hcap : ¬(10 < sources.length ∨ 10 < targets.length) := by omega
  refine ⟨?_, ?_, ?_, ?_, ?_, ?_⟩
  · simp only [distance_matrix, hs, ht, ok_bind, if_neg hcap, pure_ok, hvs, hvt, hmr,
      hasKey, hgrid, Option.isSome_some, if_true, pyGetItem, pyIter, hparse]
  · simp [hrows]
  · simp [hrows]
  · intro drow hd
    rw [List.mem_map] at hd
    obtain ⟨r, hr, hmap⟩ := hd
    rw [← hmap, List.length_map]
    exact rowItems_length_of_rowOk r targets.length (hcells r hr)
  · intro drow hd
    rw [List.mem_map] at hd
    obtain ⟨r, hr, hmap⟩ := hd
    rw [← hmap, List.length_map]
    exact rowItems_length_of_rowOk r targets.length (hcells r hr)
  · intro i j hi hj
    have hi' : i < rows.length := by rw [hrows]; exact hi
    have hget : rows.get? i = some (rows.get ⟨i, hi'⟩) := List.get?_eq_get hi'
    have hrmem : rows.get ⟨i, hi'⟩ ∈ rows := List.get_mem rows i hi'
    have hrok := hcells _ hrmem
    have hrlen : (rowItems (rows.get ⟨i, hi'⟩)).length = targets.length :=
      rowItems_length_of_rowOk _ targets.length hrok
    have hj' : j < (rowItems (rows.get ⟨i, hi'⟩)).length := by rw [hrlen]; exact hj
    have hgetj : (rowItems (rows.get ⟨i, hi'⟩)).get? j
        = some ((rowItems (rows.get ⟨i, hi'⟩)).get ⟨j, hj'⟩) := List.get?_eq_get hj'
    constructor
    · simp only [List.getD_eq_getD_get?, List.get?_map, hget, hgetj, Option.map_some,
        Option.map_some', Option.getD_some]
    · simp only [List.getD_eq_getD_get?, List.get?_map, hget, hgetj, Option.map_some,
        Option.map_some', Option.getD_some]

/-- C1 witness: the amended grid theorem at one source, one target and
a response carrying a single cell with distance 7 and time 9. -/
theorem C1_grid_mirrors_response_witness :
    distance_matrix ⟨"key", 10⟩ [Loc.point ⟨0, 0⟩] [Loc.point ⟨0, 0⟩] TravelMode.driving
        DistanceUnit.kilometers (HttpOutcome.response 200 ""
          (some (JValue.obj [("sources_to_targets", JValue.arr
            [JValue.arr [JValue.obj [("distance", JValue.num 7), ("time", JValue.num 9)]]])])))
      = Except.ok ⟨[[7]], [[9]], "metric", [Loc.point ⟨0, 0⟩], [Loc.point ⟨0, 0⟩]⟩ := by
  have h := (C1_grid_mirrors_response ⟨"key", 10⟩ [Loc.point ⟨0, 0⟩] [Loc.point ⟨0, 0⟩]
    TravelMode.driving DistanceUnit.kilometers 200 ""
    [("sources_to_targets", JValue.arr
      [JValue.arr [JValue.obj [("distance", JValue.num 7), ("time", JValue.num 9)]]])]
    [JValue.arr [JValue.obj [("distance", JValue.num 7), ("time", JValue.num 9)]]]
    rfl rfl (by decide) (by decide) (by decide) (by decide) (by omega) rfl (by simp)
    (by decide)).1
  simpa using h

end Geomaps
